import Mathlib

/-!
# Verification of the illef-workflow runner

Shallow embedding of the scheduling/execution engine of the
`illef-workflow` repository (Rust), together with theorems settling the
specification's claims about it.

The embedding follows the source files:
* `src/common/types.rs` — `ExecutionStatus`, `Execution`
* `src/runner/scheduler.rs` — `WorkflowState`, `trigger_workflow`,
  the completion continuation, `is_due`, `normalize_cron`
* `src/runner/executor.rs` — outcome recording of `execute_workflow`,
  `run_message_script`, the notification decision
* `src/common/db.rs` — the `executions` table and its queries
* `src/runner/server.rs` — `execution_to_proto`, `get_workflow_status`,
  `get_execution_log_path`

Timestamps are modelled as `Int` (Unix seconds, as produced by
`DateTime::timestamp()`); process exit codes as `Option Int`
(`ExitStatus::code()`, `none` when killed by a signal); spawn results as
`Except`/`Option` values.
-/

/-- `ExecutionStatus` from `src/common/types.rs`. -/
inductive ExecutionStatus
  | Running
  | Success
  | Failed
deriving DecidableEq, Repr

/-- `ExecutionStatus::as_str` from `src/common/types.rs`. -/
def ExecutionStatus.as_str : ExecutionStatus → String
  | .Running => "running"
  | .Success => "success"
  | .Failed => "failed"

/-- `ExecutionStatus::from_str` from `src/common/types.rs`: the Rust
`match` on the string compares against the three literals in order and
falls through to an `anyhow!("unknown status: {s}")` error. -/
def ExecutionStatus.from_str (s : String) : Except String ExecutionStatus :=
  if s = "running" then .ok .Running
  else if s = "success" then .ok .Success
  else if s = "failed" then .ok .Failed
  else .error ("unknown status: " ++ s)

/-- `Execution` from `src/common/types.rs` (timestamps as Unix seconds). -/
structure Execution where
  id : String
  workflow : String
  status : ExecutionStatus
  started_at : Int
  finished_at : Option Int
  exit_code : Option Int
  log_path : String
deriving DecidableEq, Repr

/-- `ExecutionInfo` protobuf message as populated by
`execution_to_proto` in `src/runner/server.rs`. -/
structure ExecutionInfo where
  id : String
  workflow : String
  status : String
  started_at : Int
  finished_at : Int
  exit_code : Int
  log_path : String
deriving DecidableEq, Repr

/-- `execution_to_proto` from `src/runner/server.rs`:
`finished_at.map(timestamp).unwrap_or(0)`, `exit_code.unwrap_or(-1)`. -/
def execution_to_proto (exec : Execution) : ExecutionInfo :=
  { id := exec.id
    workflow := exec.workflow
    status := exec.status.as_str
    started_at := exec.started_at
    finished_at := (exec.finished_at.map id).getD 0
    exit_code := exec.exit_code.getD (-1)
    log_path := exec.log_path }

/-- `WorkflowState` from `src/runner/scheduler.rs`: a `running` flag and a
`VecDeque<()>` of queued re-triggers (modelled as a `List Unit`, front at
the head). -/
structure WorkflowState where
  running : Bool
  queue : List Unit
deriving DecidableEq, Repr

/-- `WorkflowState::new` from `src/runner/scheduler.rs`. -/
def WorkflowState.new : WorkflowState :=
  { running := false, queue := [] }

/-- The synchronous part of `trigger_workflow` in `src/runner/scheduler.rs`
acting on one workflow's state: if `running`, `queue.push_back(())` and
return without spawning; otherwise set `running = true` and spawn
`execute_workflow`. The returned `Bool` records whether an execution was
spawned. -/
def trigger_workflow (s : WorkflowState) : WorkflowState × Bool :=
  if s.running then ({ s with queue := s.queue ++ [()] }, false)
  else ({ s with running := true }, true)

/-- The completion continuation inside the task spawned by
`trigger_workflow` (`src/runner/scheduler.rs` lines 171-180): set
`running = false`; `queue.pop_front()`; if an item was popped, set
`running = true` and log "queued execution will be triggered on next
cycle". The returned `Bool` records whether the continuation itself
starts a new execution: the source contains no call to
`execute_workflow` or `trigger_workflow` in either branch, only the log
line, so it is `false` in both. -/
def on_execution_complete (s : WorkflowState) : WorkflowState × Bool :=
  let s1 : WorkflowState := { s with running := false }
  match s1.queue with
  | [] => (s1, false)
  | _ :: rest => ({ s1 with running := true, queue := rest }, false)

/-- Helper for `split_whitespace`: walk the characters, accumulating the
current word (reversed); whitespace ends a word, empty words are
discarded. -/
def words_aux (cs : List Char) (cur : List Char) : List String :=
  match cs with
  | [] => if cur.isEmpty then [] else [String.mk cur.reverse]
  | c :: rest =>
    if c.isWhitespace then
      if cur.isEmpty then words_aux rest []
      else String.mk cur.reverse :: words_aux rest []
    else words_aux rest (c :: cur)

/-- Rust `str::split_whitespace` as used by `normalize_cron`
(`src/runner/scheduler.rs:194`): the maximal whitespace-free words of the
string, empty fields discarded. -/
def split_whitespace_fields (s : String) : List String :=
  words_aux s.data []

/-- `normalize_cron` from `src/runner/scheduler.rs`. -/
def normalize_cron (expr : String) : String :=
  if (split_whitespace_fields expr).length = 5 then "0 " ++ expr
  else expr

/-- A cron `Schedule`, modelled by its list of occurrence times in
increasing order (Unix seconds). `Schedule::after(&t).next()` yields the
first occurrence strictly after `t`. -/
def schedule_after (occs : List Int) (t : Int) : Option Int :=
  occs.find? (fun o => t < o)

/-- `is_due` from `src/runner/scheduler.rs`: `window_start = now - 5s`;
due iff the first occurrence strictly after `window_start` is `<= now`. -/
def is_due (occs : List Int) (now : Int) : Bool :=
  match schedule_after occs (now - 5) with
  | some t => t ≤ now
  | none => false

/-- The outcome recorded by `execute_workflow` in `src/runner/executor.rs`
(lines 64-97) from the result of `Command::new("bash").arg(script).output()`:
status, exit code, and the text appended to the log file after the header.
`.error e` is a spawn failure (`e` the error's `Display` string);
`.ok (code, stdout, stderr)` is a completed process with
`ExitStatus::code() = code` (`none` when signal-killed; `status.success()`
holds exactly when `code = some 0`). `finished_ts` stands for the
formatted `Local::now()` in the "Finished" line. -/
structure RunRecord where
  status : ExecutionStatus
  exit_code : Int
  log : String
deriving DecidableEq, Repr

/-- The `match output` at `src/runner/executor.rs:69-97`. -/
def process_output (output : Except String (Option Int × String × String))
    (finished_ts : String) : RunRecord :=
  match output with
  | .ok (code, stdout, stderr) =>
    let c := code.getD (-1)
    { status := if code = some 0 then .Success else .Failed
      exit_code := c
      log := stdout
        ++ (if stderr = "" then "" else "\n[stderr]\n" ++ stderr)
        ++ "\n[" ++ finished_ts ++ "] Finished with exit code: " ++ toString c ++ "\n" }
  | .error e =>
    { status := .Failed
      exit_code := -1
      log := "\n[error] Failed to start process: " ++ e ++ "\n" }

/-- `MessageScriptResult` from `src/runner/executor.rs`. -/
inductive MessageScriptResult
  | NoScript
  | Body (s : String)
  | Empty
  | Suppressed
deriving DecidableEq, Repr

/-- `MessageScriptResult::body` from `src/runner/executor.rs`. -/
def MessageScriptResult.body : MessageScriptResult → Option String
  | .Body s => some s
  | _ => none

/-- Rust `str::trim`: drop leading and trailing whitespace. -/
def rust_trim (s : String) : String :=
  String.mk (((s.data.dropWhile Char.isWhitespace).reverse.dropWhile
    Char.isWhitespace).reverse)

/-- `run_message_script` from `src/runner/executor.rs` (lines 147-168).
`spawn` is the result of `Command::output()` on the message script:
`none` is a spawn failure, `some (code, stdout)` a completed process with
`ExitStatus::code() = code`. The Rust `match` on `code` tests `Some(3)`,
then `Some(0)`, then falls through. -/
def run_message_script (message_script : Option String)
    (spawn : Option (Option Int × String)) : MessageScriptResult :=
  match message_script with
  | none => .NoScript
  | some _ =>
    match spawn with
    | none => .Empty
    | some (code, stdout) =>
      if code = some 3 then .Suppressed
      else if code = some 0 then
        let text := rust_trim stdout
        if text = "" then .Empty else .Body text
      else .Empty

/-- The default notification body `send_notification` uses for a
`Success` status (`src/runner/executor.rs:177-180`). -/
def success_default_body : String := "completed successfully"

/-- The notification decision made by `execute_workflow` for a successful
execution (`src/runner/executor.rs:114-122` together with
`send_notification:188`): no notification when the message result is
`Suppressed`; otherwise the body is `result.body().unwrap_or(default)`.
`some b` means a notification with body `b` is sent. -/
def success_notification (message_result : MessageScriptResult) : Option String :=
  if message_result = .Suppressed then none
  else some (message_result.body.getD success_default_body)

/-- The `executions` table of `src/common/db.rs`, as the list of its rows
in insertion order. -/
abbrev Db := List Execution

/-- `insert_execution` from `src/common/db.rs`. -/
def insert_execution (db : Db) (exec : Execution) : Db :=
  db ++ [exec]

/-- `get_execution_by_id` from `src/common/db.rs`:
`SELECT ... FROM executions WHERE id = ?1`, reading the first row
(`id` is the primary key, so rows have distinct ids). -/
def get_execution_by_id (db : Db) (id : String) : Option Execution :=
  db.find? (fun e => e.id = id)

/-- `ORDER BY started_at DESC`: row `a` may precede row `b` iff
`b.started_at ≤ a.started_at`. -/
def by_started_desc (a b : Execution) : Prop :=
  b.started_at ≤ a.started_at

instance : DecidableRel by_started_desc :=
  fun a b => inferInstanceAs (Decidable (b.started_at ≤ a.started_at))

instance : IsTotal Execution by_started_desc :=
  ⟨fun a b => le_total b.started_at a.started_at⟩

instance : IsTrans Execution by_started_desc :=
  ⟨fun _ _ _ hab hbc => le_trans hbc hab⟩

/-- `get_executions` from `src/common/db.rs`:
`WHERE workflow = ?1 ORDER BY started_at DESC LIMIT ?2`. -/
def get_executions (db : Db) (workflow : String) (limit : Nat) : List Execution :=
  (((db.filter (fun e => e.workflow = workflow)).insertionSort by_started_desc).take limit)

/-- `get_last_execution` from `src/common/db.rs`. -/
def get_last_execution (db : Db) (workflow : String) : Option Execution :=
  (get_executions db workflow 1).getLast?

/-- gRPC `Status` errors as produced in `src/runner/server.rs`. -/
inductive RpcError
  | notFound (msg : String)
  | internal (msg : String)
deriving DecidableEq, Repr

/-- `WorkflowConfig` from `src/common/types.rs`. -/
structure WorkflowConfig where
  name : String
  cron : String
  script : String
  message_script : Option String
deriving DecidableEq, Repr

/-- `AppConfig` from `src/common/types.rs` (the notification command is
irrelevant to the claims and omitted). -/
structure AppConfig where
  workflows : List WorkflowConfig
deriving DecidableEq, Repr

/-- `get_execution_log_path` from `src/runner/server.rs` (lines 140-154):
look the id up; `not_found` when absent, else the stored `log_path`. -/
def get_execution_log_path (db : Db) (execution_id : String) :
    Except RpcError String :=
  match get_execution_by_id db execution_id with
  | none => .error (.notFound ("execution not found: " ++ execution_id))
  | some exec => .ok exec.log_path

/-- `get_workflow_status` from `src/runner/server.rs` (lines 92-138):
find the workflow in the current config (`not_found` when absent), then
return it with `get_executions(conn, name, 50)`. The derived
`WorkflowInfo` display fields (next run, last run) are built from these
same values and the external cron crate and are not modelled. -/
def get_workflow_status (config : AppConfig) (db : Db) (name : String) :
    Except RpcError (WorkflowConfig × List Execution) :=
  match config.workflows.find? (fun w => w.name = name) with
  | none => .error (.notFound ("workflow not found: " ++ name))
  | some wf => .ok (wf, get_executions db name 50)

/-- C1: against the claim that a trigger arriving while `running == true`
with one queued re-run leaves the run-state unchanged (single-slot
coalescing), `trigger_workflow` pushes a further `()` onto the
`VecDeque`, growing the backlog to depth 2. The first conjunct shows the
failing state is reachable (two triggers from a fresh state); the second
and third show the third trigger changes the state by appending a second
queue entry. -/
theorem trigger_accumulates_backlog :
    (trigger_workflow (trigger_workflow WorkflowState.new).1).1
        = { running := true, queue := [()] } ∧
    (trigger_workflow { running := true, queue := [()] }).1
        = { running := true, queue := [(), ()] } ∧
    (trigger_workflow { running := true, queue := [()] }).1
        ≠ { running := true, queue := [()] } := by
  refine ⟨rfl, rfl, by decide⟩

/-- C2: against the claim that the completion handler starts a new
execution when a re-run is queued, the completion continuation only pops
the queue entry and re-marks `running = true`, starting nothing (its
started-flag is `false`): after Trigger, Trigger, Complete, exactly one
execution was ever started and the state is stuck at
`running = true` with an empty queue. -/
theorem completion_starts_no_execution :
    (trigger_workflow WorkflowState.new).2 = true ∧
    (trigger_workflow (trigger_workflow WorkflowState.new).1).2 = false ∧
    on_execution_complete (trigger_workflow (trigger_workflow WorkflowState.new).1).1
        = ({ running := true, queue := [] }, false) := by
  refine ⟨rfl, rfl, rfl⟩

/-- C4: `normalize_cron` prepends a literal `0` seconds field (the purely
textual rewrite `"0 " ++ expr`) exactly when the expression has 5
whitespace-separated fields, returns every other field count unchanged,
and the rewrite yields the 6-field form whose fields are `"0"` followed
by the original fields. -/
theorem normalize_cron_textual_rewrite :
    (∀ expr : String, (split_whitespace_fields expr).length = 5 →
      normalize_cron expr = "0 " ++ expr) ∧
    (∀ expr : String, (split_whitespace_fields expr).length ≠ 5 →
      normalize_cron expr = expr) ∧
    (∀ expr : String, split_whitespace_fields ("0 " ++ expr)
        = "0" :: split_whitespace_fields expr) := by
  refine ⟨fun expr h => by simp [normalize_cron, h],
    fun expr h => by simp [normalize_cron, h],
    fun expr => rfl⟩

/-- Witness for C4 at the spec's example `"*/5 * * * *"`. -/
theorem normalize_cron_textual_rewrite_witness :
    (split_whitespace_fields "*/5 * * * *").length = 5 ∧
    normalize_cron "*/5 * * * *" = "0 " ++ "*/5 * * * *" ∧
    split_whitespace_fields ("0 " ++ "*/5 * * * *")
        = ["0", "*/5", "*", "*", "*", "*"] :=
  ⟨by decide, normalize_cron_textual_rewrite.1 "*/5 * * * *" (by decide), by decide⟩

/-- C9: `from_str` is a left inverse of `as_str` on every
`ExecutionStatus` value, and errors (with the `unknown status` message)
on every string outside the three status literals. -/
theorem from_str_as_str_roundtrip :
    (∀ v : ExecutionStatus, ExecutionStatus.from_str v.as_str = .ok v) ∧
    (∀ s : String, s ≠ "running" → s ≠ "success" → s ≠ "failed" →
      ExecutionStatus.from_str s = .error ("unknown status: " ++ s)) := by
  refine ⟨fun v => by cases v <;> rfl,
    fun s h1 h2 h3 => by simp [ExecutionStatus.from_str, h1, h2, h3]⟩

/-- Witness for C9: round trip at `Failed`, error at `"bogus"`. -/
theorem from_str_as_str_roundtrip_witness :
    ExecutionStatus.from_str (ExecutionStatus.as_str .Failed) = .ok .Failed ∧
    ExecutionStatus.from_str "bogus" = .error ("unknown status: " ++ "bogus") :=
  ⟨from_str_as_str_roundtrip.1 .Failed,
   from_str_as_str_roundtrip.2 "bogus" (by decide) (by decide) (by decide)⟩

/-- C10: `execution_to_proto` maps an absent `finished_at` to `0` and an
absent `exit_code` to `-1`; hence a still-`Running` execution (which has
`exit_code = none`) is reported with `exit_code = -1`, the same sentinel
`process_output` records for a spawn failure. -/
theorem execution_to_proto_sentinels :
    (∀ exec : Execution, exec.finished_at = none →
      (execution_to_proto exec).finished_at = 0) ∧
    (∀ exec : Execution, exec.exit_code = none →
      (execution_to_proto exec).exit_code = -1) ∧
    (∀ (exec : Execution) (msg ts : String),
      exec.status = .Running → exec.exit_code = none →
      (execution_to_proto exec).exit_code
        = (process_output (.error msg) ts).exit_code) := by
  refine ⟨fun exec h => by simp [execution_to_proto, h],
    fun exec h => by simp [execution_to_proto, h],
    fun exec msg ts _ h => by simp [execution_to_proto, process_output, h]⟩

/-- Witness for C10 at a concrete still-running execution record
`⟨"e1", "wf", Running, 100, none, none, "/l"⟩`. -/
theorem execution_to_proto_sentinels_witness :
    (execution_to_proto ⟨"e1", "wf", .Running, 100, none, none, "/l"⟩).finished_at = 0 ∧
    (execution_to_proto ⟨"e1", "wf", .Running, 100, none, none, "/l"⟩).exit_code = -1 ∧
    (execution_to_proto ⟨"e1", "wf", .Running, 100, none, none, "/l"⟩).exit_code
      = (process_output (.error "no such file") "ts").exit_code :=
  ⟨execution_to_proto_sentinels.1 _ rfl,
   execution_to_proto_sentinels.2.1 _ rfl,
   execution_to_proto_sentinels.2.2 _ "no such file" "ts" rfl rfl⟩

/-- C5: the notification decision for a successful execution. With a
configured message script: exit 0 with non-blank stdout sends the
trimmed stdout as body; exit 0 with blank stdout falls back to the
default body; exit 3 suppresses the notification; any other exit code
and a spawn failure use the default body; and with no script configured
the default body is used. -/
theorem message_script_notification_spec :
    (∀ (name out : String), rust_trim out ≠ "" →
      success_notification (run_message_script (some name) (some (some 0, out)))
        = some (rust_trim out)) ∧
    (∀ (name out : String), rust_trim out = "" →
      success_notification (run_message_script (some name) (some (some 0, out)))
        = some success_default_body) ∧
    (∀ (name out : String),
      success_notification (run_message_script (some name) (some (some 3, out)))
        = none) ∧
    (∀ (name : String) (code : Option Int) (out : String),
      code ≠ some 0 → code ≠ some 3 →
      success_notification (run_message_script (some name) (some (code, out)))
        = some success_default_body) ∧
    (∀ name : String,
      success_notification (run_message_script (some name) none)
        = some success_default_body) ∧
    (∀ spawn : Option (Option Int × String),
      success_notification (run_message_script none spawn)
        = some success_default_body) := by
  refine ⟨fun name out h => ?_, fun name out h => ?_, fun name out => ?_,
    fun name code out h0 h3 => ?_, fun name => rfl, fun spawn => ?_⟩
  · simp [run_message_script, success_notification, MessageScriptResult.body, h]
  · simp [run_message_script, success_notification, MessageScriptResult.body, h]
  · simp [run_message_script, success_notification]
  · simp [run_message_script, success_notification, MessageScriptResult.body, h0, h3]
  · cases spawn <;> rfl

/-- Witness for C5: the spec's example, a message script exiting 0 with
stdout `" backup ok "` producing body `"backup ok"`, and exit 3
suppressing the notification. -/
theorem message_script_notification_spec_witness :
    rust_trim " backup ok " ≠ "" ∧
    success_notification (run_message_script (some "msg.sh") (some (some 0, " backup ok ")))
      = some (rust_trim " backup ok ") ∧
    rust_trim " backup ok " = "backup ok" ∧
    success_notification (run_message_script (some "msg.sh") (some (some 3, "")))
      = none :=
  ⟨by decide,
   message_script_notification_spec.1 "msg.sh" " backup ok " (by decide),
   by decide,
   message_script_notification_spec.2.2.1 "msg.sh" ""⟩

/-- C6: `execute_workflow`'s recording of the script process outcome: a
spawn failure is recorded as `Failed` with the sentinel exit code `-1`
and a log line describing the spawn error; exit code 0 is recorded as
`Success` with exit code 0; any nonzero exit code is recorded as
`Failed` with the real exit code. -/
theorem execute_workflow_records_outcome :
    (∀ e ts : String, process_output (.error e) ts =
      ⟨.Failed, -1, "\n[error] Failed to start process: " ++ e ++ "\n"⟩) ∧
    (∀ (stdout stderr ts : String),
      (process_output (.ok (some 0, stdout, stderr)) ts).status = .Success ∧
      (process_output (.ok (some 0, stdout, stderr)) ts).exit_code = 0) ∧
    (∀ (c : Int) (stdout stderr ts : String), c ≠ 0 →
      (process_output (.ok (some c, stdout, stderr)) ts).status = .Failed ∧
      (process_output (.ok (some c, stdout, stderr)) ts).exit_code = c) := by
  refine ⟨fun e ts => rfl, fun stdout stderr ts => ⟨rfl, rfl⟩,
    fun c stdout stderr ts h => ⟨by simp [process_output, h], rfl⟩⟩

/-- Witness for C6: a missing-script spawn failure and a real exit
code 2. -/
theorem execute_workflow_records_outcome_witness :
    process_output (.error "No such file or directory") "ts"
      = ⟨.Failed, -1,
          "\n[error] Failed to start process: " ++ "No such file or directory" ++ "\n"⟩ ∧
    (2 : Int) ≠ 0 ∧
    (process_output (.ok (some 2, "out", "")) "ts").status = .Failed ∧
    (process_output (.ok (some 2, "out", "")) "ts").exit_code = 2 :=
  ⟨execute_workflow_records_outcome.1 "No such file or directory" "ts",
   by decide,
   (execute_workflow_records_outcome.2.2 2 "out" "" "ts" (by decide)).1,
   (execute_workflow_records_outcome.2.2 2 "out" "" "ts" (by decide)).2⟩

/-- In a sorted occurrence list, if some occurrence `t` lies strictly
after `w`, then the first occurrence strictly after `w` exists and is at
most `t`. -/
theorem schedule_after_le_of_sorted :
    ∀ (occs : List Int), occs.Sorted (· ≤ ·) →
      ∀ (w t : Int), t ∈ occs → w < t →
        ∃ u, schedule_after occs w = some u ∧ u ≤ t := by
  intro occs
  induction occs with
  | nil => intro _ w t ht _; simp at ht
  | cons a l ih =>
    intro hs w t ht hw
    rw [List.sorted_cons] at hs
    by_cases ha : w < a
    · refine ⟨a, ?_, ?_⟩
      · exact List.find?_cons_of_pos _ (by simpa using ha)
      · rcases List.mem_cons.mp ht with rfl | htl
        · exact le_refl t
        · exact hs.1 t htl
    · have htl : t ∈ l := by
        rcases List.mem_cons.mp ht with rfl | h
        · exact absurd hw ha
        · exact h
      obtain ⟨u, hu, hut⟩ := ih hs.2 w t htl hw
      refine ⟨u, ?_, hut⟩
      unfold schedule_after at hu ⊢
      rw [List.find?_cons_of_neg _ (by simpa using ha)]
      exact hu

/-- C3: over a sorted occurrence list, `is_due` holds at `now` iff the
first occurrence strictly after `now - 5` is `≤ now`, equivalently iff
some occurrence lies in the window `(now - 5, now]`; in particular it
holds for an occurrence 3 seconds before `now` and fails when the only
past occurrence is 10 seconds before `now`. -/
theorem is_due_iff_occurrence_in_window :
    (∀ (occs : List Int) (now : Int), occs.Sorted (· ≤ ·) →
      (is_due occs now = true ↔ ∃ t ∈ occs, now - 5 < t ∧ t ≤ now)) ∧
    is_due [97] 100 = true ∧
    is_due [90] 100 = false := by
  refine ⟨?_, by decide, by decide⟩
  intro occs now hs
  constructor
  · intro h
    unfold is_due at h
    cases hf : schedule_after occs (now - 5) with
    | none => rw [hf] at h; simp at h
    | some t =>
      rw [hf] at h
      unfold schedule_after at hf
      exact ⟨t, List.mem_of_find?_eq_some hf,
        by simpa using List.find?_some hf, by simpa using h⟩
  · rintro ⟨t, ht, hw, hn⟩
    obtain ⟨u, hu, hut⟩ := schedule_after_le_of_sorted occs hs (now - 5) t ht hw
    unfold is_due
    rw [hu]
    simpa using le_trans hut hn

/-- Witness for C3 at the sorted occurrence list `[97, 200]` and
`now = 100`. -/
theorem is_due_iff_occurrence_in_window_witness :
    ([97, 200] : List Int).Sorted (· ≤ ·) ∧
    (is_due [97, 200] 100 = true ↔
      ∃ t ∈ ([97, 200] : List Int), 100 - 5 < t ∧ t ≤ 100) :=
  ⟨by decide, is_due_iff_occurrence_in_window.1 [97, 200] 100 (by decide)⟩

/-- In a row list whose ids are pairwise distinct (the `id` column is the
primary key), the first row matching a member's id is that member. -/
theorem find_id_eq_of_nodup :
    ∀ (db : Db) (e : Execution), (db.map Execution.id).Nodup → e ∈ db →
      db.find? (fun x => x.id = e.id) = some e := by
  intro db
  induction db with
  | nil => intro e _ he; simp at he
  | cons a l ih =>
    intro e hnd he
    rw [List.map_cons, List.nodup_cons] at hnd
    by_cases ha : a.id = e.id
    · have hae : e = a := by
        rcases List.mem_cons.mp he with rfl | hel
        · rfl
        · exact absurd (ha ▸ List.mem_map_of_mem _ hel) hnd.1
      rw [hae, List.find?_cons_of_pos _ (by simp)]
    · have hel : e ∈ l := by
        rcases List.mem_cons.mp he with rfl | h
        · exact absurd rfl ha
        · exact h
      rw [List.find?_cons_of_neg _ (by simpa using ha)]
      exact ih e hnd.2 hel

/-- C7: `GetExecutionLogPath` fails with the not-found error for every id
absent from the store, and for a stored execution (ids are unique, being
the primary key) returns exactly the `log_path` stored in its record; in
particular looking up a freshly inserted record returns the path it was
inserted with. -/
theorem get_execution_log_path_spec :
    (∀ (db : Db) (eid : String), (∀ e ∈ db, e.id ≠ eid) →
      get_execution_log_path db eid
        = .error (.notFound ("execution not found: " ++ eid))) ∧
    (∀ (db : Db) (e : Execution), (db.map Execution.id).Nodup → e ∈ db →
      get_execution_log_path db e.id = .ok e.log_path) ∧
    (∀ (db : Db) (e : Execution), (∀ x ∈ db, x.id ≠ e.id) →
      get_execution_log_path (insert_execution db e) e.id = .ok e.log_path) := by
  refine ⟨fun db eid h => ?_, fun db e hnd he => ?_, fun db e h => ?_⟩
  · have hf : db.find? (fun e => e.id = eid) = none :=
      List.find?_eq_none.mpr (fun x hx => by simpa using h x hx)
    simp [get_execution_log_path, get_execution_by_id, hf]
  · have hf := find_id_eq_of_nodup db e hnd he
    simp [get_execution_log_path, get_execution_by_id, hf]
  · have h1 : db.find? (fun x => x.id = e.id) = none :=
      List.find?_eq_none.mpr (fun x hx => by simpa using h x hx)
    have h2 : (db ++ [e]).find? (fun x => x.id = e.id) = some e := by
      rw [List.find?_append, h1]
      simp
    simp [get_execution_log_path, get_execution_by_id, insert_execution, h2]

/-- Witness for C7 on a two-row store: unknown id `"zz"` and known id
`"a2"` with stored path `"/log/a2"`. -/
theorem get_execution_log_path_spec_witness :
    (([⟨"a1", "wf", .Success, 100, some 150, some 0, "/log/a1"⟩,
        ⟨"a2", "wf", .Running, 200, none, none, "/log/a2"⟩] : Db).map
      Execution.id).Nodup ∧
    get_execution_log_path
        [⟨"a1", "wf", .Success, 100, some 150, some 0, "/log/a1"⟩,
          ⟨"a2", "wf", .Running, 200, none, none, "/log/a2"⟩] "zz"
      = .error (.notFound ("execution not found: " ++ "zz")) ∧
    get_execution_log_path
        [⟨"a1", "wf", .Success, 100, some 150, some 0, "/log/a1"⟩,
          ⟨"a2", "wf", .Running, 200, none, none, "/log/a2"⟩] "a2"
      = .ok "/log/a2" :=
  ⟨by decide,
   get_execution_log_path_spec.1 _ "zz" (by decide),
   get_execution_log_path_spec.2.1 _
     ⟨"a2", "wf", .Running, 200, none, none, "/log/a2"⟩ (by decide) (by decide)⟩

/-- C8: `GetWorkflowStatus` fails with the not-found error whenever the
name is absent from the current definition set; otherwise it returns
executions of that workflow, at most 50 of them, ordered by start time
descending (most recent first). -/
theorem get_workflow_status_spec :
    (∀ (config : AppConfig) (db : Db) (name : String),
      (∀ w ∈ config.workflows, w.name ≠ name) →
      get_workflow_status config db name
        = .error (.notFound ("workflow not found: " ++ name))) ∧
    (∀ (config : AppConfig) (db : Db) (name : String) (wf : WorkflowConfig)
        (execs : List Execution),
      get_workflow_status config db name = .ok (wf, execs) →
      execs.length ≤ 50 ∧ (∀ e ∈ execs, e.workflow = name) ∧
      execs.Sorted by_started_desc) := by
  constructor
  · intro config db name h
    have hf : config.workflows.find? (fun w => w.name = name) = none :=
      List.find?_eq_none.mpr (fun w hw => by simpa using h w hw)
    simp [get_workflow_status, hf]
  · intro config db name wf execs h
    unfold get_workflow_status at h
    cases hf : config.workflows.find? (fun w => w.name = name) with
    | none => rw [hf] at h; simp at h
    | some wf0 =>
      rw [hf] at h
      simp only [Except.ok.injEq, Prod.mk.injEq] at h
      obtain ⟨-, h2⟩ := h
      subst h2
      refine ⟨?_, ?_, ?_⟩
      · exact List.length_take_le _ _
      · intro e he
        unfold get_executions at he
        have h1 := List.mem_of_mem_take he
        have h2 := (List.mem_insertionSort by_started_desc).mp h1
        have h3 := List.mem_filter.mp h2
        simpa using h3.2
      · exact List.Pairwise.sublist (List.take_sublist _ _)
          (List.sorted_insertionSort by_started_desc _)

/-- Witness for C8: a config with one workflow `"backup"` and a store
with two `"backup"` rows (started 100 and 200) and one foreign row; the
result lists the `"backup"` rows newest first. -/
theorem get_workflow_status_spec_witness :
    get_workflow_status ⟨[⟨"backup", "0 0 * * *", "backup.sh", none⟩]⟩
        [⟨"x1", "backup", .Success, 100, some 150, some 0, "/l/x1"⟩,
          ⟨"x2", "backup", .Running, 200, none, none, "/l/x2"⟩,
          ⟨"x3", "other", .Success, 300, some 310, some 0, "/l/x3"⟩]
        "backup"
      = .ok (⟨"backup", "0 0 * * *", "backup.sh", none⟩,
          [⟨"x2", "backup", .Running, 200, none, none, "/l/x2"⟩,
            ⟨"x1", "backup", .Success, 100, some 150, some 0, "/l/x1"⟩]) ∧
    (([⟨"x2", "backup", .Running, 200, none, none, "/l/x2"⟩,
        ⟨"x1", "backup", .Success, 100, some 150, some 0, "/l/x1"⟩] :
          List Execution).length ≤ 50 ∧
      (∀ e ∈ ([⟨"x2", "backup", .Running, 200, none, none, "/l/x2"⟩,
          ⟨"x1", "backup", .Success, 100, some 150, some 0, "/l/x1"⟩] :
            List Execution), e.workflow = "backup") ∧
      ([⟨"x2", "backup", .Running, 200, none, none, "/l/x2"⟩,
          ⟨"x1", "backup", .Success, 100, some 150, some 0, "/l/x1"⟩] :
            List Execution).Sorted by_started_desc) :=
  ⟨rfl,
   get_workflow_status_spec.2 ⟨[⟨"backup", "0 0 * * *", "backup.sh", none⟩]⟩
     [⟨"x1", "backup", .Success, 100, some 150, some 0, "/l/x1"⟩,
       ⟨"x2", "backup", .Running, 200, none, none, "/l/x2"⟩,
       ⟨"x3", "other", .Success, 300, some 310, some 0, "/l/x3"⟩]
     "backup" ⟨"backup", "0 0 * * *", "backup.sh", none⟩
     [⟨"x2", "backup", .Running, 200, none, none, "/l/x2"⟩,
       ⟨"x1", "backup", .Success, 100, some 150, some 0, "/l/x1"⟩]
     rfl⟩
